import Mathlib

/-!
Verification of the UDP ingress path of the nextdns DNS forwarding proxy
(`proxy/udp.go`).

The development shallowly embeds:
* the kernel control-message (ancillary data) codec used by the source via
  `golang.org/x/net/ipv4` and `golang.org/x/net/ipv6`, fixed to the
  linux/amd64 wire format (8-byte cmsg alignment, 16-byte `cmsghdr` with a
  little-endian `uint64` length followed by two little-endian `int32`
  fields; `IP_PKTINFO`/`IPV6_PKTINFO` payloads);
* the `serveUDP` dispatch loop and its per-datagram query handler, with the
  external collaborators (socket reads, `resolver.NewQuery`, `Proxy.Resolve`,
  the write call and the loggers) represented by explicit outcome records,
  and the handler/loop effects (pool puts, writes, log entries) collected
  into traces.

Bytes are modelled as `Nat`s (kept below 256 by construction where the
source guarantees it); Go `net.IP` is a byte list with `[]` standing for
the `nil` slice.
-/

/-- 8-byte alignment used by cmsg encoding on linux/amd64
(`cmsgAlignOf`). -/
def align8 (n : Nat) : Nat := (n + 7) / 8 * 8

/-- Little-endian encoding of a 32-bit value into four bytes. -/
def le32 (n : Nat) : List Nat :=
  [n % 256, n / 256 % 256, n / 65536 % 256, n / 16777216 % 256]

/-- Little-endian encoding of a 64-bit value into eight bytes. -/
def le64 (n : Nat) : List Nat :=
  le32 (n % 4294967296) ++ le32 (n / 4294967296)

/-- Little-endian read of a byte list (native-endian reads in the source,
which targets little-endian linux/amd64). -/
def readLE (bs : List Nat) : Nat := bs.foldr (fun b acc => b + 256 * acc) 0

/-- Go `net.IP`: a byte slice; `[]` models the `nil` slice ("absent"). -/
abbrev NetIP := List Nat

/-- The 12-byte prefix of an IPv4-mapped IPv6 address
(`0,...,0,0xff,0xff`), from Go `net.v4InV6Prefix`. -/
def v4mappedPrefix : List Nat := [0, 0, 0, 0, 0, 0, 0, 0, 0, 0, 255, 255]

/-- Go `net.IP.To4`: the 4-byte form of an IP, or `nil` (`[]`) when the
address is not representable as IPv4. -/
def NetIP.to4 (ip : NetIP) : NetIP :=
  if ip.length = 4 then ip
  else if ip.length = 16 ∧ ip.take 12 = v4mappedPrefix then ip.drop 12
  else []

/-- Go `net.IP.To16`: the 16-byte form of an IP, or `nil` (`[]`) when the
slice has neither 4 nor 16 bytes. -/
def NetIP.to16 (ip : NetIP) : NetIP :=
  if ip.length = 4 then v4mappedPrefix ++ ip
  else if ip.length = 16 then ip
  else []

/-- One marshalled control message on linux/amd64: a 16-byte `cmsghdr`
(`Len = 16 + dataLen` as LE `uint64`, then LE `int32` level and type),
the payload, and zero padding up to the 8-byte-aligned cmsg space.  This is
`socket.ControlMessage.MarshalHeader` plus payload inside the zeroed buffer
allocated by `socket.NewControlMessage`. -/
def cmsgBytes (level typ : Nat) (data : List Nat) : List Nat :=
  le64 (16 + data.length) ++ le32 level ++ le32 typ ++ data ++
    List.replicate (align8 data.length - data.length) 0

/-- `golang.org/x/net/ipv4.ControlMessage.Marshal` restricted to the fields
the source sets (`Src`, `IfIndex`), linux: when `Src.To4() != nil` or
`IfIndex > 0`, one `IP_PKTINFO` (level 0, type 8) message whose
`inetPktinfo` payload is `Ifindex (4) ++ Spec_dst (4) ++ Addr (4)`;
`Marshal` copies `Src.To4()` into `Spec_dst` and leaves `Addr` zero. -/
def ipv4Marshal (src : NetIP) (ifIndex : Nat) : List Nat :=
  if src.to4 ≠ [] ∨ ifIndex > 0 then
    cmsgBytes 0 8
      (le32 ifIndex ++ (if src.to4 ≠ [] then src.to4 else [0, 0, 0, 0]) ++
        [0, 0, 0, 0])
  else []

/-- `golang.org/x/net/ipv6.ControlMessage.Marshal` restricted to the fields
the source sets (`Src`, `IfIndex`), linux: when `Src` is a genuine IPv6
address (`To16() != nil && To4() == nil`) or `IfIndex > 0`, one
`IPV6_PKTINFO` (level 41, type 50) message whose `inet6Pktinfo` payload is
`Addr (16) ++ Ifindex (4)`; the encoder silently drops IPv4(-mapped)
source addresses, leaving `Addr` zero. -/
def ipv6Marshal (src : NetIP) (ifIndex : Nat) : List Nat :=
  if (src.to16 ≠ [] ∧ src.to4 = []) ∨ ifIndex > 0 then
    cmsgBytes 41 50
      ((if src.to16 ≠ [] ∧ src.to4 = [] then src.to16 else
          List.replicate 16 0) ++ le32 ifIndex)
  else []

/-- `oobWithSrc` (udp.go:131): returns oob data with the source address set
to `ip`; uses the IPv6 control-message format when `ip.To4() == nil`
(because ipv6's marshal ignores IPv4 addresses) and the IPv4 format
otherwise. -/
def oobWithSrc (ip : NetIP) : List Nat :=
  if ip.to4 = [] then ipv6Marshal ip 0 else ipv4Marshal ip 0

/-- `udpOOBSize` (udp.go:20): the larger of the IPv4 and the IPv6
control-message encodings sized for `FlagDst | FlagInterface`, i.e. the
cmsg space of a 12-byte and of a 20-byte pktinfo payload. -/
def udpOOBSize : Nat := max (16 + align8 12) (16 + align8 20)

/-- `golang.org/x/net/internal/socket.ControlMessage.Parse` on linux/amd64,
with `fuel` a structural-recursion bound (the caller passes the byte
count; each step consumes at least 16 bytes, so the bound is never hit).
Splits a raw ancillary buffer into `(level, type, data)` triples; `none`
models the error returns (`invalid header length` for a zero or negative
`cmsghdr.Len` — negative meaning the `uint64` is at least `2^63` —
`invalid message length` for a length below the 16-byte header size, and
`short buffer` for a length beyond the remaining bytes). -/
def parseCmsgsAux (fuel : Nat) (m : List Nat) :
    Option (List (Nat × Nat × List Nat)) :=
  if m.length < 16 then some []
  else
    match fuel with
    | 0 => none
    | fuel' + 1 =>
      let l := readLE (m.take 8)
      if l = 0 ∨ 9223372036854775808 ≤ l then none
      else if l < 16 then none
      else if m.length < l then none
      else
        let lvl := readLE ((m.drop 8).take 4)
        let typ := readLE ((m.drop 12).take 4)
        let data := (m.drop 16).take (l - 16)
        let space := 16 + align8 (l - 16)
        let skip := if space ≤ m.length then space else l
        match parseCmsgsAux fuel' (m.drop skip) with
        | none => none
        | some rest => some ((lvl, typ, data) :: rest)

/-- Socket-level ancillary parse (see `parseCmsgsAux`). -/
def parseCmsgs (m : List Nat) : Option (List (Nat × Nat × List Nat)) :=
  parseCmsgsAux m.length m

/-- The fields of `golang.org/x/net/ipv6.ControlMessage` that its `Parse`
can set and that matter here; `dst = []` models a `nil` `Dst`.  (`Parse`
can also fill `MTU` from an `IPV6_PATHMTU` message; that field is never
read by the proxy and cannot affect `Dst`, so it is not tracked.) -/
structure IPv6ControlMessage where
  trafficClass : Nat := 0
  hopLimit : Nat := 0
  dst : NetIP := []
  ifIndex : Nat := 0
deriving DecidableEq, Repr

/-- One step of `ipv6.ControlMessage.Parse` (linux): messages at level 41
(`SOL_IPV6`) are examined; `IPV6_TCLASS` (67), `IPV6_HOPLIMIT` (52) and
`IPV6_PKTINFO` (50, payload `Addr (16) ++ Ifindex (4)`) update the
corresponding fields; anything else is skipped. -/
def ipv6ParseStep (cm : IPv6ControlMessage) (c : Nat × Nat × List Nat) :
    IPv6ControlMessage :=
  match c with
  | (lvl, typ, data) =>
    if lvl ≠ 41 then cm
    else if typ = 67 ∧ 4 ≤ data.length then
      { cm with trafficClass := readLE (data.take 4) }
    else if typ = 52 ∧ 4 ≤ data.length then
      { cm with hopLimit := readLE (data.take 4) }
    else if typ = 50 ∧ 20 ≤ data.length then
      { cm with dst := data.take 16, ifIndex := readLE ((data.drop 16).take 4) }
    else cm

/-- `ipv6.ControlMessage.Parse`: `none` models a non-nil error (which can
only come from the socket-level parse; the per-message header re-parse
cannot fail on the slices the socket-level parse produces). -/
def ipv6Parse (oob : List Nat) : Option IPv6ControlMessage :=
  match parseCmsgs oob with
  | none => none
  | some ms => some (ms.foldl ipv6ParseStep {})

/-- The fields of `golang.org/x/net/ipv4.ControlMessage` that its `Parse`
can set on linux; `dst = []` models a `nil` `Dst`. -/
structure IPv4ControlMessage where
  ttl : Nat := 0
  dst : NetIP := []
  ifIndex : Nat := 0
deriving DecidableEq, Repr

/-- One step of `ipv4.ControlMessage.Parse` (linux): messages at level 0
(`SOL_IP`) are examined; `IP_TTL` (2) and `IP_PKTINFO` (8, payload
`Ifindex (4) ++ Spec_dst (4) ++ Addr (4)`) update the fields — note the
decoder reads `Dst` from the `Addr` field, not from `Spec_dst`; anything
else is skipped. -/
def ipv4ParseStep (cm : IPv4ControlMessage) (c : Nat × Nat × List Nat) :
    IPv4ControlMessage :=
  match c with
  | (lvl, typ, data) =>
    if lvl ≠ 0 then cm
    else if typ = 2 ∧ 1 ≤ data.length then
      { cm with ttl := readLE (data.take 1) }
    else if typ = 8 ∧ 12 ≤ data.length then
      { cm with ifIndex := readLE (data.take 4), dst := (data.drop 8).take 4 }
    else cm

/-- `ipv4.ControlMessage.Parse`: `none` models a non-nil error. -/
def ipv4Parse (oob : List Nat) : Option IPv4ControlMessage :=
  match parseCmsgs oob with
  | none => none
  | some ms => some (ms.foldl ipv4ParseStep {})

/-- `parseDstFromOOB` (udp.go:146): try the IPv6 control-message decode;
if it succeeds and yields a destination, return it; otherwise try the IPv4
decode; otherwise return `nil`. -/
def parseDstFromOOB (oob : List Nat) : NetIP :=
  match ipv6Parse oob with
  | some cm6 =>
    if cm6.dst ≠ [] then cm6.dst
    else
      match ipv4Parse oob with
      | some cm4 => if cm4.dst ≠ [] then cm4.dst else []
      | none => []
  | none =>
    match ipv4Parse oob with
    | some cm4 => if cm4.dst ≠ [] then cm4.dst else []
    | none => []

/-- Modelled from the spec: `decodeDestination(raw ancillary bytes) → IP or
absent` — "attempts IPv6 control-message decoding first; if that yields a
destination address, return it.  Otherwise attempt IPv4 decoding; if that
yields a destination address, return it.  Otherwise return absent."
Written from the spec's words, to be compared with `parseDstFromOOB`. -/
def decodeDestinationSpec (oob : List Nat) : NetIP :=
  let d6 := match ipv6Parse oob with
    | some cm6 => cm6.dst
    | none => []
  if d6 ≠ [] then d6
  else
    let d4 := match ipv4Parse oob with
      | some cm4 => cm4.dst
      | none => []
    if d4 ≠ [] then d4 else []

/-- `maxUDPSize` (udp.go:17): the maximum supported UDP DNS payload. -/
def maxUDPSize : Nat := 512

/-- A Go `error` value, identified by its message. -/
structure Err where
  msg : String
deriving DecidableEq, Repr

/-- Go `*net.UDPAddr` as far as the source uses it. -/
structure UDPAddr where
  ip : NetIP
  port : Nat
deriving DecidableEq, Repr

/-- Modelled from the spec: the repository's `addrIP` helper (outside
`src/`) extracts the peer IP from the remote address for
`resolver.NewQuery`. -/
def addrIP (a : UDPAddr) : NetIP := a.ip

/-- Modelled from the spec: the fields of `resolver.Query` (repository
code outside `src/`) that udp.go reads — "query exposes at least peer IP,
DNS record type, and queried name, even in partial/error form". -/
structure Query where
  peerIP : NetIP := []
  qtype : String := ""
  name : String := ""
deriving DecidableEq, Repr

/-- Modelled from the spec: `resolver.ResolveInfo` (repository code outside
`src/`) "carries at least an upstream transport identifier for logging". -/
structure ResolveInfo where
  transport : String := ""
deriving DecidableEq, Repr

/-- Modelled from the spec: the `QueryInfo` completion-log record
(repository code outside `src/`) with the fields udp.go fills.  The
wall-clock `Duration` field is not modelled (real time). -/
structure QueryInfo where
  peerIP : NetIP
  protocol : String
  qtype : String
  name : String
  querySize : Nat
  responseSize : Nat
  upstreamTransport : String
  error : Option Err
deriving DecidableEq, Repr

/-- Modelled from the spec: the `Proxy` configuration udp.go consumes — "a
resolution timeout duration (0 = unbounded)". -/
structure Proxy where
  timeout : Nat := 0
deriving DecidableEq, Repr

/-- A Go `context.Context` as far as udp.go builds one. -/
inductive Ctx where
  | background
  | withTimeout (d : Nat)
deriving DecidableEq, Repr

/-- udp.go:88-93: `context.Background()`, wrapped by `WithTimeout` exactly
when `p.Timeout > 0`. -/
def resolveCtx (timeout : Nat) : Ctx :=
  if timeout > 0 then Ctx.withTimeout timeout else Ctx.background

/-- The outcomes of the external collaborator calls made by one spawned
handler: what `resolver.NewQuery` returns for this datagram (a possibly
partial query value plus an optional error, since Go returns both), the
triple `(rsize, ri, err)` that `p.Resolve` returns (all three are assigned
even when `err` is non-nil), the buffer contents after the resolver wrote
the response into it, and the error of the `WriteMsgUDP` call should it be
reached. -/
structure HandlerEnv where
  newQueryQ : Query := {}
  newQueryErr : Option Err := none
  resolveSize : Nat := 0
  resolveInfo : ResolveInfo := {}
  resolveErr : Option Err := none
  bufAfterResolve : List Nat := []
  writeErr : Option Err := none
deriving DecidableEq, Repr

/-- One `WriteMsgUDP` call: payload bytes, oob bytes, peer address. -/
structure WriteRec where
  payload : List Nat
  oob : List Nat
  addr : UDPAddr
deriving DecidableEq, Repr

/-- The observable effects of one spawned handler. -/
structure HandlerResult where
  poolPuts : Nat
  resolveCalls : List (Ctx × Query)
  writes : List WriteRec
  logs : List QueryInfo
  errLogs : List Err
deriving DecidableEq, Repr

/-- The goroutine body spawned per accepted datagram (udp.go:66-101):
`NewQuery` (an error is sent to `logErr` but does not abort), the deferred
`bpool.Put` + `logQuery` (which run exactly once on every exit path and
log the final values of `rsize`, `ri` and `err`), the context, the
`Resolve` call (returning early on error, and on a response larger than
`maxUDPSize`), and otherwise one `WriteMsgUDP` of `buf[:rsize]` with
`oobWithSrc(lip)` to `raddr`.  Note that a successful `Resolve` overwrites
the `err` variable, so a construction error never reaches the completion
log, and that `rsize`/`ri` are logged as returned by `Resolve` even on a
resolve error. -/
def handleQuery (p : Proxy) (env : HandlerEnv) (qsize : Nat) (lip : NetIP)
    (raddr : UDPAddr) : HandlerResult :=
  let q := env.newQueryQ
  let constructionLogs := match env.newQueryErr with
    | some e => [e]
    | none => []
  let ctx := resolveCtx p.timeout
  let body : Nat × ResolveInfo × Option Err × List WriteRec :=
    match env.resolveErr with
    | some e => (env.resolveSize, env.resolveInfo, some e, [])
    | none =>
      if env.resolveSize > maxUDPSize then
        (env.resolveSize, env.resolveInfo, none, [])
      else
        (env.resolveSize, env.resolveInfo, env.writeErr,
          [{ payload := env.bufAfterResolve.take env.resolveSize,
             oob := oobWithSrc lip, addr := raddr }])
  { poolPuts := 1
    resolveCalls := [(ctx, q)]
    writes := body.2.2.2
    logs := [{ peerIP := q.peerIP, protocol := "UDP", qtype := q.qtype,
               name := q.name, querySize := qsize, responseSize := body.1,
               upstreamTransport := body.2.1.transport, error := body.2.2.1 }]
    errLogs := constructionLogs }

/-- One `ReadMsgUDP` outcome observed by the loop: either a receive error
(with its `net.Error` classification) or a datagram carrying `n` payload
bytes, the raw ancillary bytes, the peer address, and the collaborator
outcomes of the handler that would process it. -/
inductive RecvEvent where
  | recvErr (e : Err) (isNetErr : Bool) (temporary : Bool)
  | pkt (n : Nat) (oob : List Nat) (raddr : UDPAddr) (henv : HandlerEnv)
deriving Repr

/-- `readUDP` (udp.go:119): a single receive returning payload length, the
local destination IP decoded from the ancillary bytes via
`parseDstFromOOB`, and the remote address; on a socket error the error is
propagated (the `-1` length the source returns with it is never read). -/
def readUDP : RecvEvent → Except (Err × Bool × Bool) (Nat × NetIP × UDPAddr)
  | RecvEvent.recvErr e isNet temp => Except.error (e, isNet, temp)
  | RecvEvent.pkt n oob raddr _ => Except.ok (n, parseDstFromOOB oob, raddr)

/-- What happened in one iteration of the dispatch loop, for the buffer
acquired at its start. -/
inductive IterTrace where
  | transientErr (e : Err)
  | fatalErr (e : Err)
  | short (qsize : Nat)
  | handled (h : HandlerResult)
deriving DecidableEq, Repr

/-- How many times the buffer acquired in this iteration is put back into
the pool: once by the loop on the transient-error and short-datagram
paths, never on the fatal-error return (udp.go:59 returns without
`bpool.Put`), and by the handler's deferred put otherwise. -/
def bufferPuts : IterTrace → Nat
  | IterTrace.transientErr _ => 1
  | IterTrace.fatalErr _ => 0
  | IterTrace.short _ => 1
  | IterTrace.handled h => h.poolPuts

/-- Completion-log entries produced in one iteration. -/
def logsOf : IterTrace → List QueryInfo
  | IterTrace.handled h => h.logs
  | _ => []

/-- Whether this iteration spawned a query handler. -/
def spawnsHandler : IterTrace → Bool
  | IterTrace.handled _ => true
  | _ => false

/-- The dispatch loop (udp.go:51-102) over a finite schedule of receive
outcomes: acquire a buffer, receive; on a temporary `net.Error` put the
buffer back and retry; on any other receive error return it (the held
buffer is not put back); on `qsize <= 14` put the buffer back and
continue; otherwise spawn the handler (fire-and-forget; its effects are
recorded in this iteration's trace) and continue.  The second component is
`none` while the loop is still running after consuming the schedule. -/
def serveUDPLoop (p : Proxy) : List RecvEvent → List IterTrace × Option Err
  | [] => ([], none)
  | ev :: rest =>
    match readUDP ev, ev with
    | Except.error (e, isNet, temp), _ =>
      if isNet && temp then
        ((IterTrace.transientErr e) :: (serveUDPLoop p rest).1,
          (serveUDPLoop p rest).2)
      else ([IterTrace.fatalErr e], some e)
    | Except.ok (n, lip, raddr), RecvEvent.pkt _ _ _ henv =>
      if n ≤ 14 then
        ((IterTrace.short n) :: (serveUDPLoop p rest).1,
          (serveUDPLoop p rest).2)
      else
        ((IterTrace.handled (handleQuery p henv n lip raddr)) ::
            (serveUDPLoop p rest).1,
          (serveUDPLoop p rest).2)
    | Except.ok _, RecvEvent.recvErr _ _ _ =>
      ([], none)

/-- The listening socket as `serveUDP` probes it: whether the
`net.PacketConn` is a `*net.UDPConn`, and the two
`SetControlMessage` results. -/
structure SocketModel where
  isUDPConn : Bool
  err6 : Option Err
  err4 : Option Err
deriving DecidableEq, Repr

/-- `setUDPDstOptions` (udp.go:107): try both families; fail (with the
IPv4 attempt's error) only when both fail. -/
def setUDPDstOptions (s : SocketModel) : Option Err :=
  match s.err6, s.err4 with
  | some _, some e4 => some e4
  | _, _ => none

/-- `serveUDP` (udp.go:35): reject a non-UDP socket, enable the
destination-address options (wrapping a failure as
`setUDPDstOptions: <err>`), then run the dispatch loop. -/
def serveUDP (p : Proxy) (s : SocketModel) (events : List RecvEvent) :
    List IterTrace × Option Err :=
  if s.isUDPConn = false then ([], some (Err.mk "not a UDP socket"))
  else
    match setUDPDstOptions s with
    | some e => ([], some (Err.mk ("setUDPDstOptions: " ++ e.msg)))
    | none => serveUDPLoop p events

/-! Concrete fixtures used by witnesses and counterexamples. -/

/-- A proxy with no timeout configured. -/
def sampleProxy : Proxy := {}

/-- A sample peer address. -/
def sampleAddr : UDPAddr := { ip := [203, 0, 113, 9], port := 53 }

/-- A representative genuine IPv6 address (2001:db8::1). -/
def sampleV6 : NetIP := [32, 1, 13, 184, 0, 0, 0, 0, 0, 0, 0, 0, 0, 0, 0, 1]

/-- 16 ancillary bytes whose cmsg length field (5) is below the header
size, so the socket-level parse fails. -/
def malformedOOB : List Nat := [5, 0, 0, 0, 0, 0, 0, 0, 0, 0, 0, 0, 0, 0, 0, 0]

/-- A handler run in which the resolver fails with "upstream timeout"
while returning size 7 alongside the error. -/
def envResolveErr : HandlerEnv :=
  { resolveSize := 7, resolveErr := some { msg := "upstream timeout" } }

/-- A handler run with a successful 40-byte response. -/
def envSmall : HandlerEnv :=
  { resolveSize := 40, bufAfterResolve := List.replicate 512 9 }

/-- A handler run with a successful but oversized 600-byte response. -/
def envBig : HandlerEnv := { resolveSize := 600 }

/-- A handler run in which query construction fails but resolution
succeeds with a 40-byte response. -/
def envBadQuery : HandlerEnv :=
  { newQueryQ := { peerIP := [203, 0, 113, 9] },
    newQueryErr := some { msg := "bad query" },
    resolveSize := 40, bufAfterResolve := List.replicate 512 9 }

/-- How often the buffer of each loop iteration ought to be put back given
what the iteration did: never when the loop returns on a non-transient
receive error, once otherwise. -/
def expectedPuts : IterTrace → Nat
  | IterTrace.fatalErr _ => 0
  | _ => 1

/-- Whether a receive outcome is a non-transient error, i.e. one that
terminates the dispatch loop. -/
def eventFatal : RecvEvent → Bool
  | RecvEvent.recvErr _ isNet temp => !(isNet && temp)
  | RecvEvent.pkt _ _ _ _ => false

/-! Helper lemmas about the byte-level codec. -/

lemma le32_length (n : Nat) : (le32 n).length = 4 := rfl

lemma le64_length (n : Nat) : (le64 n).length = 8 := rfl

lemma readLE_le32 (n : Nat) (h : n < 4294967296) : readLE (le32 n) = n := by
  simp [readLE, le32]
  omega

lemma readLE_le64_small (n : Nat) (h : n < 4294967296) :
    readLE (le64 n) = n := by
  simp [readLE, le64, le32]
  omega

lemma align8_ge (n : Nat) : n ≤ align8 n := by
  unfold align8
  omega

lemma parseCmsgsAux_nil (f : Nat) : parseCmsgsAux f [] = some [] := by
  unfold parseCmsgsAux
  simp

lemma parseCmsgsAux_cons (f : Nat) (m : List Nat) (l : Nat)
    (h16 : ¬ m.length < 16)
    (hl : readLE (m.take 8) = l)
    (hl0 : ¬ (l = 0 ∨ 9223372036854775808 ≤ l))
    (hl16 : ¬ l < 16)
    (hshort : ¬ m.length < l)
    (hspace : 16 + align8 (l - 16) ≤ m.length) :
    parseCmsgsAux (f + 1) m =
      match parseCmsgsAux f (m.drop (16 + align8 (l - 16))) with
      | none => none
      | some rest =>
        some ((readLE ((m.drop 8).take 4), readLE ((m.drop 12).take 4),
          (m.drop 16).take (l - 16)) :: rest) := by
  conv_lhs => unfold parseCmsgsAux
  rw [if_neg h16]
  simp only [hl]
  rw [if_neg hl0, if_neg hl16, if_neg hshort, if_pos hspace]

lemma parseCmsgs_cmsgBytes (lvl typ : Nat) (data : List Nat)
    (hl : lvl < 4294967296) (ht : typ < 4294967296)
    (hd : data.length < 1000) :
    parseCmsgs (cmsgBytes lvl typ data) = some [(lvl, typ, data)] := by
  have hassoc : cmsgBytes lvl typ data =
      le64 (16 + data.length) ++ (le32 lvl ++ (le32 typ ++ (data ++
        List.replicate (align8 data.length - data.length) 0))) := by
    simp [cmsgBytes]
  have hmlen : (cmsgBytes lvl typ data).length = 16 + align8 data.length := by
    rw [hassoc]
    simp [List.length_append, le64_length, le32_length]
    unfold align8
    omega
  have htake8 : (cmsgBytes lvl typ data).take 8 = le64 (16 + data.length) := by
    rw [hassoc]
    exact List.take_left' (le64_length _)
  have hdrop8 : (cmsgBytes lvl typ data).drop 8 =
      le32 lvl ++ (le32 typ ++ (data ++
        List.replicate (align8 data.length - data.length) 0)) := by
    rw [hassoc]
    exact List.drop_left' (le64_length _)
  have hdrop12 : (cmsgBytes lvl typ data).drop 12 =
      le32 typ ++ (data ++
        List.replicate (align8 data.length - data.length) 0) := by
    have h : ((cmsgBytes lvl typ data).drop 8).drop 4 =
        (cmsgBytes lvl typ data).drop 12 := by
      rw [List.drop_drop]
    rw [← h, hdrop8]
    exact List.drop_left' (le32_length _)
  have hdrop16 : (cmsgBytes lvl typ data).drop 16 =
      data ++ List.replicate (align8 data.length - data.length) 0 := by
    have h : ((cmsgBytes lvl typ data).drop 12).drop 4 =
        (cmsgBytes lvl typ data).drop 16 := by
      rw [List.drop_drop]
    rw [← h, hdrop12]
    exact List.drop_left' (le32_length _)
  have hreadl : readLE ((cmsgBytes lvl typ data).take 8) =
      16 + data.length := by
    rw [htake8]
    exact readLE_le64_small _ (by omega)
  have hreadlvl : readLE (((cmsgBytes lvl typ data).drop 8).take 4) = lvl := by
    rw [hdrop8, List.take_left' (le32_length _)]
    exact readLE_le32 _ hl
  have hreadtyp : readLE (((cmsgBytes lvl typ data).drop 12).take 4) = typ := by
    rw [hdrop12, List.take_left' (le32_length _)]
    exact readLE_le32 _ ht
  have hdata : ((cmsgBytes lvl typ data).drop 16).take
      (16 + data.length - 16) = data := by
    have h : 16 + data.length - 16 = data.length := by omega
    rw [h, hdrop16]
    exact List.take_left' rfl
  have hdropall : (cmsgBytes lvl typ data).drop
      (16 + align8 (16 + data.length - 16)) = [] := by
    have h : 16 + data.length - 16 = data.length := by omega
    rw [h]
    apply List.drop_eq_nil_of_le
    rw [hmlen]
  obtain ⟨f, hf⟩ : ∃ f, (cmsgBytes lvl typ data).length = f + 1 :=
    ⟨(cmsgBytes lvl typ data).length - 1, by rw [hmlen]; omega⟩
  unfold parseCmsgs
  rw [hf]
  rw [parseCmsgsAux_cons f (cmsgBytes lvl typ data) (16 + data.length)
    (by rw [hmlen]; omega) hreadl (by omega) (by omega)
    (by rw [hmlen]; have := align8_ge data.length; omega)
    (by rw [hmlen]; have h : 16 + data.length - 16 = data.length := by omega
        rw [h])]
  rw [hdropall, parseCmsgsAux_nil, hreadlvl, hreadtyp, hdata]

lemma to4_length (ip : NetIP) (h : ip.to4 ≠ []) : ip.to4.length = 4 := by
  unfold NetIP.to4 at *
  split_ifs at * with h1 h2
  · exact h1
  · simp [List.length_drop, h2.1]
  · simp at h

lemma roundtrip_v6 (ip : NetIP) (h16 : ip.length = 16)
    (h4 : ip.to4 = []) : parseDstFromOOB (oobWithSrc ip) = ip := by
  have hne : ip ≠ [] := by
    intro h0
    rw [h0] at h16
    simp at h16
  have henc : oobWithSrc ip = cmsgBytes 41 50 (ip ++ le32 0) := by
    simp [oobWithSrc, ipv6Marshal, NetIP.to16, h4, h16, hne]
  have hp : parseCmsgs (cmsgBytes 41 50 (ip ++ le32 0)) =
      some [(41, 50, ip ++ le32 0)] :=
    parseCmsgs_cmsgBytes _ _ _ (by omega) (by omega)
      (by simp [List.length_append, h16, le32_length])
  have hdst : (ip ++ le32 0).take 16 = ip := List.take_left' h16
  have hifx : ((ip ++ le32 0).drop 16).take 4 = le32 0 := by
    rw [List.drop_left' h16]
    decide
  have hlen20 : (ip ++ le32 0).length = 20 := by
    simp [h16, le32_length]
  have h6 : ipv6Parse (cmsgBytes 41 50 (ip ++ le32 0)) =
      some (ipv6ParseStep {} (41, 50, ip ++ le32 0)) := by
    unfold ipv6Parse
    rw [hp]
    rfl
  have hstep : ipv6ParseStep {} (41, 50, ip ++ le32 0) =
      { dst := ip, ifIndex := 0 } := by
    unfold ipv6ParseStep
    simp [hlen20, hdst, hifx, show readLE (le32 0) = 0 from rfl]
  rw [henc]
  unfold parseDstFromOOB
  rw [h6, hstep]
  simp [hne]

lemma roundtrip_v4 (ip : NetIP) (h : ip.to4 ≠ []) :
    parseDstFromOOB (oobWithSrc ip) = [0, 0, 0, 0] := by
  have h4len : ip.to4.length = 4 := to4_length ip h
  have henc : oobWithSrc ip =
      cmsgBytes 0 8 (le32 0 ++ ip.to4 ++ [0, 0, 0, 0]) := by
    simp [oobWithSrc, ipv4Marshal, h]
  have hassoc : le32 0 ++ ip.to4 ++ [0, 0, 0, 0] =
      le32 0 ++ (ip.to4 ++ [0, 0, 0, 0]) := by
    simp [List.append_assoc]
  have hdlen : (le32 0 ++ ip.to4 ++ [0, 0, 0, 0]).length = 12 := by
    simp [List.length_append, le32_length, h4len]
  have hp : parseCmsgs (cmsgBytes 0 8 (le32 0 ++ ip.to4 ++ [0, 0, 0, 0])) =
      some [(0, 8, le32 0 ++ ip.to4 ++ [0, 0, 0, 0])] :=
    parseCmsgs_cmsgBytes _ _ _ (by omega) (by omega) (by rw [hdlen]; omega)
  have htake4 : (le32 0 ++ (ip.to4 ++ [0, 0, 0, 0])).take 4 = le32 0 :=
    List.take_left' (le32_length _)
  have hdrop8 : ((le32 0 ++ (ip.to4 ++ [0, 0, 0, 0])).drop 8).take 4 =
      [0, 0, 0, 0] := by
    have hsplit : (le32 0 ++ (ip.to4 ++ [0, 0, 0, 0])).drop 8 =
        [0, 0, 0, 0] := by
      have hd : ((le32 0 ++ (ip.to4 ++ [0, 0, 0, 0])).drop 4).drop 4 =
          (le32 0 ++ (ip.to4 ++ [0, 0, 0, 0])).drop 8 := by
        rw [List.drop_drop]
      rw [← hd, List.drop_left' (le32_length _), List.drop_left' h4len]
    rw [hsplit]
    decide
  have h6 : ipv6Parse (cmsgBytes 0 8 (le32 0 ++ ip.to4 ++ [0, 0, 0, 0])) =
      some (ipv6ParseStep {} (0, 8, le32 0 ++ ip.to4 ++ [0, 0, 0, 0])) := by
    unfold ipv6Parse
    rw [hp]
    rfl
  have hstep6 : ipv6ParseStep {} (0, 8, le32 0 ++ ip.to4 ++ [0, 0, 0, 0]) =
      {} := by
    unfold ipv6ParseStep
    norm_num
  have h4p : ipv4Parse (cmsgBytes 0 8 (le32 0 ++ ip.to4 ++ [0, 0, 0, 0])) =
      some (ipv4ParseStep {} (0, 8, le32 0 ++ ip.to4 ++ [0, 0, 0, 0])) := by
    unfold ipv4Parse
    rw [hp]
    rfl
  have hstep4 : ipv4ParseStep {} (0, 8, le32 0 ++ ip.to4 ++ [0, 0, 0, 0]) =
      { ttl := 0, dst := [0, 0, 0, 0], ifIndex := 0 } := by
    unfold ipv4ParseStep
    simp [le32_length, h4len, htake4, hdrop8,
      show readLE (le32 0) = 0 from rfl]
  rw [henc]
  unfold parseDstFromOOB
  rw [h6, hstep6, h4p, hstep4]
  simp

/-- C1: every spawned query handler puts its pooled buffer back exactly
once and emits exactly one completion log entry, whatever the collaborator
outcomes (query construction error, resolver error, oversized response,
write error, or full success). -/
theorem handler_releases_buffer_once_and_logs_once (p : Proxy)
    (env : HandlerEnv) (qsize : Nat) (lip : NetIP) (raddr : UDPAddr) :
    (handleQuery p env qsize lip raddr).poolPuts = 1 ∧
    (handleQuery p env qsize lip raddr).logs.length = 1 :=
  ⟨rfl, rfl⟩

/-- C2 (counterexample): on a non-transient receive error the loop returns
without putting the acquired buffer back, so that buffer is returned zero
times, not exactly once as the claim states. -/
theorem loop_fatal_error_abandons_buffer :
    ((serveUDPLoop sampleProxy
        [RecvEvent.recvErr { msg := "socket closed" } false false]).1.map
      bufferPuts) = [0] ∧ (0 : Nat) ≠ 1 := by
  decide

/-- C2 (amended): no buffer is ever put back twice; every buffer acquired
by the dispatch loop is put back exactly once, except the buffer held when
a non-transient receive error terminates the loop, which is abandoned
(put back zero times); in particular while the loop is still running every
acquired buffer has been put back exactly once. -/
theorem loop_buffer_release_discipline (p : Proxy)
    (events : List RecvEvent) :
    ((serveUDPLoop p events).1.map bufferPuts).all
        (fun k => decide (k ≤ 1)) = true ∧
    (serveUDPLoop p events).1.map bufferPuts =
      (serveUDPLoop p events).1.map expectedPuts ∧
    ((serveUDPLoop p events).2 = none →
      ((serveUDPLoop p events).1.map bufferPuts).all
        (fun k => decide (k = 1)) = true) := by
  induction events with
  | nil => simp [serveUDPLoop]
  | cons ev rest ih =>
    rcases ev with ⟨e, isNet, temp⟩ | ⟨n, oob, raddr, henv⟩
    · by_cases ht : (isNet && temp) = true
      · simpa [serveUDPLoop, readUDP, ht, bufferPuts, expectedPuts] using ih
      · simp [serveUDPLoop, readUDP, ht, bufferPuts, expectedPuts]
    · by_cases hn : n ≤ 14
      · simpa [serveUDPLoop, readUDP, hn, bufferPuts, expectedPuts] using ih
      · simpa [serveUDPLoop, readUDP, hn, bufferPuts, expectedPuts,
          handleQuery] using ih

/-- C2 (witness): with one transient receive error the loop is still
running and its sole acquired buffer has been put back exactly once. -/
theorem loop_buffer_release_discipline_witness :
    ((serveUDPLoop sampleProxy
        [RecvEvent.recvErr { msg := "again" } true true]).1.map
      bufferPuts).all (fun k => decide (k = 1)) = true :=
  (loop_buffer_release_discipline sampleProxy
    [RecvEvent.recvErr { msg := "again" } true true]).2.2 (by decide)

/-- C3: a datagram of at most 14 payload bytes spawns no handler and
produces no log entry; the loop puts the buffer back and continues with
the rest of the schedule. -/
theorem short_datagram_skipped (p : Proxy) (n : Nat) (oob : List Nat)
    (raddr : UDPAddr) (henv : HandlerEnv) (rest : List RecvEvent)
    (hn : n ≤ 14) :
    serveUDPLoop p (RecvEvent.pkt n oob raddr henv :: rest) =
      (IterTrace.short n :: (serveUDPLoop p rest).1,
        (serveUDPLoop p rest).2) ∧
    bufferPuts (IterTrace.short n) = 1 ∧
    logsOf (IterTrace.short n) = [] ∧
    spawnsHandler (IterTrace.short n) = false := by
  refine ⟨?_, rfl, rfl, rfl⟩
  simp [serveUDPLoop, readUDP, hn]

/-- C3 (witness): a 10-byte datagram is skipped. -/
theorem short_datagram_skipped_witness :
    serveUDPLoop sampleProxy [RecvEvent.pkt 10 [] sampleAddr {}] =
      (IterTrace.short 10 :: (serveUDPLoop sampleProxy []).1,
        (serveUDPLoop sampleProxy []).2) ∧
    bufferPuts (IterTrace.short 10) = 1 ∧
    logsOf (IterTrace.short 10) = [] ∧
    spawnsHandler (IterTrace.short 10) = false :=
  short_datagram_skipped sampleProxy 10 [] sampleAddr {} [] (by decide)

/-- C4: when the resolver succeeds, a response larger than `maxUDPSize`
(512) is never written, while a response of at most 512 bytes produces
exactly one write of the first `rsize` buffer bytes to the original peer
address (with the encoded local IP as ancillary source data). -/
theorem oversized_dropped_and_small_written (p : Proxy) (env : HandlerEnv)
    (qsize : Nat) (lip : NetIP) (raddr : UDPAddr)
    (hok : env.resolveErr = none) :
    (maxUDPSize < env.resolveSize →
      (handleQuery p env qsize lip raddr).writes = []) ∧
    (env.resolveSize ≤ maxUDPSize →
      (handleQuery p env qsize lip raddr).writes =
        [{ payload := env.bufAfterResolve.take env.resolveSize,
           oob := oobWithSrc lip, addr := raddr }]) := by
  refine ⟨fun hs => ?_, fun hs => ?_⟩
  · simp [handleQuery, hok, hs]
  · simp [handleQuery, hok, Nat.not_lt.mpr hs]

/-- C4 (witness): a 600-byte response is dropped; a 40-byte response is
written once to the peer. -/
theorem oversized_dropped_and_small_written_witness :
    (handleQuery sampleProxy envBig 20 [] sampleAddr).writes = [] ∧
    (handleQuery sampleProxy envSmall 20 [192, 0, 2, 7] sampleAddr).writes =
      [{ payload := envSmall.bufAfterResolve.take envSmall.resolveSize,
         oob := oobWithSrc [192, 0, 2, 7], addr := sampleAddr }] :=
  ⟨(oversized_dropped_and_small_written sampleProxy envBig 20 [] sampleAddr
      rfl).1 (by decide),
   (oversized_dropped_and_small_written sampleProxy envSmall 20 [192, 0, 2, 7]
      sampleAddr rfl).2 (by decide)⟩

/-- C5: the destination decode agrees everywhere with the spec's
description (IPv6 control-message decode first, returning its destination
when one is yielded, then IPv4, otherwise absent); whenever the
socket-level ancillary parse fails — any malformed input — the decode
returns absent rather than an error, and the empty input returns
absent. -/
theorem decode_dst_fallback_order (oob : List Nat) :
    parseDstFromOOB oob = decodeDestinationSpec oob ∧
    (parseCmsgs oob = none → parseDstFromOOB oob = []) ∧
    parseDstFromOOB [] = [] := by
  refine ⟨?_, fun h => ?_, rfl⟩
  · rcases h6 : ipv6Parse oob with _ | cm6 <;>
      rcases h4 : ipv4Parse oob with _ | cm4 <;>
        simp [parseDstFromOOB, decodeDestinationSpec, h6, h4]
  · simp [parseDstFromOOB, ipv6Parse, ipv4Parse, h]

/-- C5 (witness): a 16-byte buffer whose cmsg length field is 5 is
malformed (the socket-level parse errors) and decodes to absent. -/
theorem decode_dst_fallback_order_witness :
    parseDstFromOOB malformedOOB = [] :=
  (decode_dst_fallback_order malformedOOB).2.1 (by decide)

/-- C6: an IP whose 4-byte form is absent is encoded with the IPv6
control-message format — for a genuine 16-byte IPv6 address, a single
`IPV6_PKTINFO` message (level 41, type 50) carrying the address in the
pktinfo source/address slot — while any IPv4-representable IP is encoded
with the IPv4 format: a single `IP_PKTINFO` message (level 0, type 8)
carrying the 4-byte address in the pktinfo `Spec_dst` slot. -/
theorem encode_src_family_selection (ip : NetIP) :
    (ip.to4 = [] →
      oobWithSrc ip = ipv6Marshal ip 0 ∧
      (ip.length = 16 →
        oobWithSrc ip = cmsgBytes 41 50 (ip ++ le32 0))) ∧
    (ip.to4 ≠ [] →
      oobWithSrc ip = ipv4Marshal ip 0 ∧
      oobWithSrc ip = cmsgBytes 0 8 (le32 0 ++ ip.to4 ++ [0, 0, 0, 0])) := by
  refine ⟨fun h4 => ⟨by simp [oobWithSrc, h4], fun h16 => ?_⟩,
    fun h4 => ⟨by simp [oobWithSrc, h4], ?_⟩⟩
  · have hne : ip ≠ [] := by
      intro hnil
      rw [hnil] at h16
      simp at h16
    simp [oobWithSrc, ipv6Marshal, NetIP.to16, h4, h16, hne]
  · simp [oobWithSrc, ipv4Marshal, h4]

/-- C6 (witness): 2001:db8::1 is encoded in the IPv6 format with itself as
the pktinfo address; 192.0.2.1 is encoded in the IPv4 format with itself
in the `Spec_dst` slot. -/
theorem encode_src_family_selection_witness :
    oobWithSrc sampleV6 = cmsgBytes 41 50 (sampleV6 ++ le32 0) ∧
    oobWithSrc [192, 0, 2, 1] =
      cmsgBytes 0 8 (le32 0 ++ NetIP.to4 [192, 0, 2, 1] ++ [0, 0, 0, 0]) :=
  ⟨((encode_src_family_selection sampleV6).1 (by decide)).2 (by decide),
   ((encode_src_family_selection [192, 0, 2, 1]).2 (by decide)).2⟩

/-- C7 (counterexample): the round-trip fails for IPv4 addresses: encoding
192.0.2.1 as a source and decoding the resulting control-message bytes
yields 0.0.0.0, not the original address, because the IPv4 encoder writes
the source into the pktinfo `Spec_dst` field while the decoder reads the
destination from the separate `Addr` field, which the encoder leaves
zero. -/
theorem ancillary_roundtrip_fails_for_ipv4 :
    parseDstFromOOB (oobWithSrc [192, 0, 2, 1]) = [0, 0, 0, 0] ∧
    ¬ parseDstFromOOB (oobWithSrc [192, 0, 2, 1]) = [192, 0, 2, 1] := by
  decide

/-- C7 (amended): the ancillary round-trip recovers the original address
for every genuine 16-byte IPv6 address, but for every IPv4-representable
address — whether given in 4-byte or in IPv4-mapped 16-byte form — the
decode of the encoded bytes yields 0.0.0.0 (the zero pktinfo `Addr` field)
instead of the original address. -/
theorem ancillary_roundtrip_amended :
    (∀ ip : NetIP, ip.length = 16 → ip.to4 = [] →
      parseDstFromOOB (oobWithSrc ip) = ip) ∧
    (∀ ip : NetIP, ip.to4 ≠ [] →
      parseDstFromOOB (oobWithSrc ip) = [0, 0, 0, 0]) :=
  ⟨roundtrip_v6, roundtrip_v4⟩

/-- C7 (witness): 2001:db8::1 round-trips; 10.0.0.7 comes back as
0.0.0.0. -/
theorem ancillary_roundtrip_amended_witness :
    parseDstFromOOB (oobWithSrc sampleV6) = sampleV6 ∧
    parseDstFromOOB (oobWithSrc [10, 0, 0, 7]) = [0, 0, 0, 0] :=
  ⟨ancillary_roundtrip_amended.1 sampleV6 (by decide) (by decide),
   ancillary_roundtrip_amended.2 [10, 0, 0, 7] (by decide)⟩

/-- C8 (counterexample): on a resolver error the completion log records
whatever size value the resolver returned alongside the error — here 7,
not 0 as the claim states (udp.go:94 assigns `rsize` from `Resolve` even
when `err` is non-nil). -/
theorem resolve_error_logs_resolver_size :
    (handleQuery sampleProxy envResolveErr 20 [] sampleAddr).writes = [] ∧
    (handleQuery sampleProxy envResolveErr 20 [] sampleAddr).logs.map
        (fun l => l.responseSize) = [7] ∧
    (7 : Nat) ≠ 0 := by
  decide

/-- C8 (amended): on a resolver error no write occurs and the single
completion log entry records the resolver's error together with the size
and transport values the resolver returned alongside it (so ResponseSize
is 0 exactly when the resolver returned 0 with its error, which is the Go
convention but is not enforced by this code). -/
theorem resolve_error_no_write (p : Proxy) (env : HandlerEnv) (qsize : Nat)
    (lip : NetIP) (raddr : UDPAddr) (e : Err)
    (he : env.resolveErr = some e) :
    (handleQuery p env qsize lip raddr).writes = [] ∧
    (handleQuery p env qsize lip raddr).logs =
      [{ peerIP := env.newQueryQ.peerIP, protocol := "UDP",
         qtype := env.newQueryQ.qtype, name := env.newQueryQ.name,
         querySize := qsize, responseSize := env.resolveSize,
         upstreamTransport := env.resolveInfo.transport,
         error := some e }] := by
  simp [handleQuery, he]

/-- C8 (witness): the "upstream timeout" scenario, with the resolver
returning size 7 alongside its error. -/
theorem resolve_error_no_write_witness :
    (handleQuery sampleProxy envResolveErr 20 [] sampleAddr).writes = [] ∧
    (handleQuery sampleProxy envResolveErr 20 [] sampleAddr).logs =
      [{ peerIP := envResolveErr.newQueryQ.peerIP, protocol := "UDP",
         qtype := envResolveErr.newQueryQ.qtype,
         name := envResolveErr.newQueryQ.name,
         querySize := 20, responseSize := envResolveErr.resolveSize,
         upstreamTransport := envResolveErr.resolveInfo.transport,
         error := some { msg := "upstream timeout" } }] :=
  resolve_error_no_write sampleProxy envResolveErr 20 [] sampleAddr
    { msg := "upstream timeout" } rfl

/-- C9 (counterexample): `serveUDP` also stops and returns an error when
the socket is not a `*net.UDPConn`, and when enabling the
destination-address options fails for both families — in both cases before
any receive, so a non-transient receive error is not the only condition
under which the service stops with an error. -/
theorem setup_failure_stops_service :
    (serveUDP sampleProxy
        { isUDPConn := false, err6 := none, err4 := none } []).2 =
      some { msg := "not a UDP socket" } ∧
    (serveUDP sampleProxy
        { isUDPConn := true, err6 := some { msg := "no ipv6" },
          err4 := some { msg := "no ipv4" } } []).2 =
      some { msg := "setUDPDstOptions: no ipv4" } :=
  ⟨rfl, rfl⟩

/-- C9 (amended): once initialization succeeds (the socket is a UDP socket
and the destination options are set), `serveUDP` is exactly the dispatch
loop; the loop stops with an error precisely when the schedule contains a
non-transient receive error; a transient (temporary `net.Error`) receive
error puts the buffer back and retries; and a non-transient receive error
terminates the loop, propagating that error.  Initialization failures also
stop the service with an error, before any receive. -/
theorem service_stop_conditions (p : Proxy) (s : SocketModel)
    (events rest : List RecvEvent) (e : Err) (isNet temp : Bool) :
    (s.isUDPConn = true → setUDPDstOptions s = none →
      serveUDP p s events = serveUDPLoop p events) ∧
    ((serveUDPLoop p events).2 = none ↔
      events.all (fun ev => !eventFatal ev) = true) ∧
    (serveUDPLoop p (RecvEvent.recvErr e true true :: rest) =
      (IterTrace.transientErr e :: (serveUDPLoop p rest).1,
        (serveUDPLoop p rest).2)) ∧
    bufferPuts (IterTrace.transientErr e) = 1 ∧
    (¬(isNet = true ∧ temp = true) →
      serveUDPLoop p (RecvEvent.recvErr e isNet temp :: rest) =
        ([IterTrace.fatalErr e], some e)) := by
  refine ⟨fun h1 h2 => by simp [serveUDP, h1, h2], ?_,
    by simp [serveUDPLoop, readUDP], rfl, fun hf => ?_⟩
  · induction events with
    | nil => simp [serveUDPLoop]
    | cons ev rest2 ih =>
      rcases ev with ⟨e2, isNet2, temp2⟩ | ⟨n, oob, raddr, henv⟩
      · by_cases ht : (isNet2 && temp2) = true
        · simpa [serveUDPLoop, readUDP, ht, eventFatal] using ih
        · simp [serveUDPLoop, readUDP, ht, eventFatal]
      · by_cases hn : n ≤ 14
        · simpa [serveUDPLoop, readUDP, hn, eventFatal] using ih
        · simpa [serveUDPLoop, readUDP, hn, eventFatal] using ih
  · have ht : (isNet && temp) = false := by
      cases isNet <;> cases temp <;> simp_all
    simp [serveUDPLoop, readUDP, ht]

/-- C9 (witness): after successful setup the service is the loop; a
schedule with one transient error and one short datagram leaves the loop
running; a lone non-transient error terminates it with that error. -/
theorem service_stop_conditions_witness :
    serveUDP sampleProxy { isUDPConn := true, err6 := none, err4 := none }
        [] = serveUDPLoop sampleProxy [] ∧
    (serveUDPLoop sampleProxy
        [RecvEvent.recvErr { msg := "again" } true true,
         RecvEvent.pkt 3 [] sampleAddr {}]).2 = none ∧
    serveUDPLoop sampleProxy
        [RecvEvent.recvErr { msg := "socket closed" } true false] =
      ([IterTrace.fatalErr { msg := "socket closed" }],
        some { msg := "socket closed" }) :=
  ⟨(service_stop_conditions sampleProxy
      { isUDPConn := true, err6 := none, err4 := none } [] []
      { msg := "x" } true true).1 rfl rfl,
   (service_stop_conditions sampleProxy
      { isUDPConn := true, err6 := none, err4 := none }
      [RecvEvent.recvErr { msg := "again" } true true,
       RecvEvent.pkt 3 [] sampleAddr {}] []
      { msg := "x" } true true).2.1.mpr (by decide),
   (service_stop_conditions sampleProxy
      { isUDPConn := true, err6 := none, err4 := none } [] []
      { msg := "socket closed" } true false).2.2.2.2 (by decide)⟩

/-- C10: a query-construction error does not abort the handler: the
construction error goes to the side error log, the resolver is still
invoked with the partially-constructed query, exactly one completion log
entry is still emitted, and if resolution succeeds with a response of at
most 512 bytes the response datagram is still written to the peer. -/
theorem construction_error_does_not_abort (p : Proxy) (env : HandlerEnv)
    (qsize : Nat) (lip : NetIP) (raddr : UDPAddr) (e : Err)
    (he : env.newQueryErr = some e) :
    (handleQuery p env qsize lip raddr).errLogs = [e] ∧
    (handleQuery p env qsize lip raddr).resolveCalls =
      [(resolveCtx p.timeout, env.newQueryQ)] ∧
    (handleQuery p env qsize lip raddr).logs.length = 1 ∧
    (env.resolveErr = none → env.resolveSize ≤ maxUDPSize →
      (handleQuery p env qsize lip raddr).writes =
        [{ payload := env.bufAfterResolve.take env.resolveSize,
           oob := oobWithSrc lip, addr := raddr }]) := by
  refine ⟨by simp [handleQuery, he], rfl, rfl, fun hok hs => ?_⟩
  simp [handleQuery, hok, Nat.not_lt.mpr hs]

/-- C10 (witness): a failed construction still resolves and writes the
40-byte response. -/
theorem construction_error_does_not_abort_witness :
    (handleQuery sampleProxy envBadQuery 20 [] sampleAddr).errLogs =
      [{ msg := "bad query" }] ∧
    (handleQuery sampleProxy envBadQuery 20 [] sampleAddr).resolveCalls =
      [(resolveCtx sampleProxy.timeout, envBadQuery.newQueryQ)] ∧
    (handleQuery sampleProxy envBadQuery 20 [] sampleAddr).logs.length = 1 ∧
    (handleQuery sampleProxy envBadQuery 20 [] sampleAddr).writes =
      [{ payload := envBadQuery.bufAfterResolve.take envBadQuery.resolveSize,
         oob := oobWithSrc [], addr := sampleAddr }] :=
  have h := construction_error_does_not_abort sampleProxy envBadQuery 20 []
    sampleAddr { msg := "bad query" } rfl
  ⟨h.1, h.2.1, h.2.2.1, h.2.2.2 rfl (by decide)⟩
